import Mathlib

/-!
Verification of the smart-meter digital-twin engine (`src/app.py`).

The script ingests a `(voltage, current)` sample from one of three sources
(manual sliders, demo scenarios, MQTT live feed), derives power and cost,
maintains a bounded rolling power history (`deque(maxlen=50)`), and produces
a security verdict from an opaque statistical model
(`prediction = model.predict([[voltage, current]])[0]`, inlier encoded as 1).

Real numbers from the script are embedded as rationals (`ℚ`); the opaque
statistical model is an arbitrary function `ℚ → ℚ → ℤ`, matching the
`predict(features) -> label` contract (the code only ever tests `== 1`).
-/

namespace SmartMeter

/-- The opaque statistical model: `model.predict([[v, c]])[0]`.
The code treats it as a black box and only compares its output with `1`. -/
def ModelFn : Type := ℚ → ℚ → ℤ

/-! ## Rolling history buffer: `deque(maxlen=50)` (app.py line 38) -/

/-- Capacity of the history deque: `deque(maxlen=50)`. -/
def histCap : Nat := 50

/-- One `append` on a Python `deque(maxlen=50)`: if the buffer is below
capacity the element is appended; at capacity the oldest (leftmost) entry
is evicted while the new element is appended on the right. -/
def dqAppend (buf : List ℚ) (x : ℚ) : List ℚ :=
  if buf.length < histCap then buf ++ [x] else buf.drop 1 ++ [x]

/-- The buffer obtained from the empty deque after appending the elements
of `xs` in order (one tick appends one power reading, app.py line 103). -/
def histAll (xs : List ℚ) : List ℚ :=
  List.foldl dqAppend [] xs

/-! ## Demo-scenario adapter (app.py lines 79–90) -/

inductive Scenario where
  | normal    -- "Normal Operation"
  | theft     -- "Power Theft (Bypass)"
  | wireCut   -- "Wire Cut (Low Voltage)"
  | overload  -- "Overload Surge"
deriving DecidableEq

/-- `(voltage_input, current_input)` literals of the Demo Scenarios branch. -/
def scenario_sample : Scenario → ℚ × ℚ
  | .normal   => (230.0, 5.0)
  | .theft    => (230.0, 0.2)
  | .wireCut  => (15.0, 0.0)
  | .overload => (220.0, 35.0)

/-! ## Remote feed listener (app.py lines 47–53)

```python
def on_message(client, userdata, msg):
    try:
        data = json.loads(msg.payload.decode())
        st.session_state.live_voltage = float(data['voltage'])
        st.session_state.live_current = float(data['current'])
    except:
        pass
```

The two assignments run sequentially inside one `try`; an exception raised
while producing the *current* value leaves the already-performed *voltage*
assignment in place.  The payload is modelled by the outcome of parsing:
either not valid JSON at all, or a JSON object whose `voltage` / `current`
fields are each a number, present-but-not-numeric, or absent. -/

structure RemoteSampleState where
  live_voltage : ℚ
  live_current : ℚ
deriving DecidableEq

/-- Initial shared state (app.py lines 40–41): 230.0 V, 5.0 A. -/
def initRemoteState : RemoteSampleState := ⟨230.0, 5.0⟩

/-- Outcome of `float(data[key])` for one JSON field. -/
inductive FieldVal where
  | num (q : ℚ)   -- field present and convertible by `float`
  | notNum        -- field present but `float(...)` raises
  | absent        -- field missing: `data[key]` raises `KeyError`
deriving DecidableEq

/-- Outcome of `json.loads(msg.payload.decode())`. -/
inductive Payload where
  | malformed                              -- `json.loads` raises
  | record (voltage current : FieldVal)    -- parsed object, field by field
deriving DecidableEq

/-- `float(data[key])` as a fallible computation. -/
def floatOf : FieldVal → Option ℚ
  | .num q => some q
  | .notNum => none
  | .absent => none

/-- The `on_message` handler: sequential field assignments under one
bare `except: pass`.  Never raises (it is a total function); an exception
after the first assignment keeps that assignment's effect. -/
def on_message (s : RemoteSampleState) (p : Payload) : RemoteSampleState :=
  match p with
  | .malformed => s
  | .record vf cf =>
    match floatOf vf with
    | none => s
    | some v =>
      match floatOf cf with
      | none => { s with live_voltage := v }
      | some c => { live_voltage := v, live_current := c }

/-! ## One orchestration tick (app.py lines 98–151) -/

/-- The record a single run of the script computes from the active sample:
metrics (lines 99–100), updated history (line 103), model prediction and
scores (lines 106–107, 130–143), and the anomaly label (line 147). -/
structure TickRecord where
  voltage_input : ℚ
  current_input : ℚ
  power_calc : ℚ
  est_cost : ℚ
  prediction : ℤ
  secure : Bool          -- the `prediction == 1` branch of the status banner
  theft_prob : ℚ
  health : ℚ
  anomaly_label : String
  history_power : List ℚ

/-- One tick of the script on sample `(v, c)` with model `m` and incoming
history buffer `hist`:

```python
power_calc = voltage_input * current_input
est_cost = (power_calc / 1000) * 8 * 24 * 30
st.session_state.history_power.append(power_calc)
prediction = model.predict([[voltage_input, current_input]])[0]
theft_prob = 0.05 if prediction == 1 else 0.98
...
health = 1.0 if prediction == 1 else 0.2
...
{'None' if prediction == 1 else 'Pattern Deviation'}
``` -/
def tick (m : ModelFn) (v c : ℚ) (hist : List ℚ) : TickRecord :=
  let power := v * c
  let cost := (power / 1000) * 8 * 24 * 30
  let hist2 := dqAppend hist power
  let p := m v c
  { voltage_input := v
    current_input := c
    power_calc := power
    est_cost := cost
    prediction := p
    secure := decide (p = 1)
    theft_prob := if p = 1 then 0.05 else 0.98
    health := if p = 1 then 1.0 else 0.2
    anomaly_label := if p = 1 then "None" else "Pattern Deviation"
    history_power := hist2 }

/-- The model that classifies every sample as an inlier.  This is exactly
the engine's documented degraded mode (model unavailable ⇒ treat every
sample as `inlier`), and the behaviour of the in-process fallback model on
points inside its nominal-only training manifold. -/
def inlierModel : ModelFn := fun _ _ => 1

/-! ## Solar export (absent from src/app.py) -/

/-- Modelled from the spec: no solar-export computation exists in
`src/app.py`; §4.3 specifies `base_generation` as a fixed nominal capacity
(450 W) gated to zero whenever `voltage <= 200`. -/
def base_generation (v : ℚ) : ℚ :=
  if v ≤ 200 then 0 else 450

/-- Modelled from the spec: fixed exported fraction of generation. -/
def export_ratio : ℚ := 0.65

/-- Modelled from the spec: `solar_export = base_generation * export_ratio`. -/
def solar_export (v : ℚ) : ℚ :=
  base_generation v * export_ratio

end SmartMeter

namespace SmartMeter

/-! ## Claims -/

/-- C7. For every sample processed in a tick, `power_calc` equals
`voltage_input * current_input` exactly (app.py line 99); in the rational
embedding the identity is exact, so any floating-point tolerance ε is met. -/
theorem C7_power_is_voltage_times_current
    (m : ModelFn) (v c : ℚ) (hist : List ℚ) :
    (tick m v c hist).power_calc =
      (tick m v c hist).voltage_input * (tick m v c hist).current_input := by
  simp [tick]

/-- C7 witness at a concrete input. -/
theorem C7_power_is_voltage_times_current_witness :
    (tick inlierModel 220 35 []).power_calc =
      (tick inlierModel 220 35 []).voltage_input *
        (tick inlierModel 220 35 []).current_input :=
  C7_power_is_voltage_times_current inlierModel 220 35 []

/-- C4. In every `TickRecord` the three verdict fields agree: the verdict
is ALERT (`secure = false`, i.e. `prediction ≠ 1`) iff
`theft_prob ≥ 0.5` iff `health ≤ 0.5`. -/
theorem C4_verdict_fields_agree
    (m : ModelFn) (v c : ℚ) (hist : List ℚ) :
    ((tick m v c hist).secure = false ↔ (tick m v c hist).theft_prob ≥ 0.5) ∧
    ((tick m v c hist).secure = false ↔ (tick m v c hist).health ≤ 0.5) := by
  by_cases hp : m v c = 1 <;> simp [tick, hp] <;> norm_num

/-- C6. The final verdict maps to fixed scalar scores: SECURE yields
`theft_prob = 0.05` and `health = 1.0`; ALERT yields `theft_prob = 0.98`
and `health = 0.2` (the deployment's single ALERT health constant,
one of the two admitted values 0.1 / 0.2). -/
theorem C6_fixed_scores
    (m : ModelFn) (v c : ℚ) (hist : List ℚ) :
    (tick m v c hist).theft_prob =
        (if (tick m v c hist).secure then 0.05 else 0.98) ∧
    (tick m v c hist).health =
        (if (tick m v c hist).secure then 1.0 else 0.2) ∧
    ((tick m v c hist).secure = true ∨ (tick m v c hist).health = 0.2) := by
  by_cases hp : m v c = 1 <;> simp [tick, hp]

/-- C9. The Scenario adapter maps each fault label to its literal sample:
Normal → (230.0, 5.0); Theft → (230.0, 0.2); WireCut → voltage ≤ 15 with
current = 0; Overload → current ≥ 35. -/
theorem C9_scenario_literals :
    scenario_sample .normal = (230.0, 5.0) ∧
    scenario_sample .theft = (230.0, 0.2) ∧
    (scenario_sample .wireCut).1 ≤ 15.0 ∧
    (scenario_sample .wireCut).2 = 0.0 ∧
    (scenario_sample .overload).2 ≥ 35.0 := by
  refine ⟨rfl, rfl, ?_, rfl, ?_⟩ <;> norm_num [scenario_sample]

/-- C10. The emitted anomaly label is exactly one of two strings:
"Pattern Deviation" on ALERT, "None" on SECURE; the labels "VoltageDrop"
and "Overload" are never produced. -/
theorem C10_label_is_binary
    (m : ModelFn) (v c : ℚ) (hist : List ℚ) :
    ((tick m v c hist).secure = true ↔ (tick m v c hist).anomaly_label = "None") ∧
    ((tick m v c hist).secure = false ↔
      (tick m v c hist).anomaly_label = "Pattern Deviation") ∧
    (tick m v c hist).anomaly_label ≠ "VoltageDrop" ∧
    (tick m v c hist).anomaly_label ≠ "Overload" := by
  by_cases hp : m v c = 1 <;> simp [tick, hp]

/-- C5. Solar export (modelled from the spec, absent from src/app.py):
`solar_export` is `base_generation * export_ratio`, where generation is
gated to zero exactly when `voltage ≤ 200`; in particular at the Overload
sample's voltage 220 the export is positive. -/
theorem C5_solar_export_gated (v : ℚ) :
    solar_export v = base_generation v * export_ratio ∧
    solar_export v = (if v ≤ 200 then 0 else 450 * export_ratio) ∧
    0 < solar_export 220 := by
  refine ⟨rfl, ?_, by norm_num [solar_export, base_generation, export_ratio]⟩
  by_cases hv : v ≤ 200 <;> simp [solar_export, base_generation, hv]

/-- C1 counterexample. The claim "voltage < 180 forces ALERT regardless of
model output" is false of the code: at the Wire Cut sample (15.0, 0.0),
with a model that classifies the sample as an inlier (exactly the engine's
model-unavailable fallback behaviour), the verdict is SECURE.  app.py
derives the verdict from `prediction` alone; no voltage threshold exists. -/
theorem C1_low_voltage_override_cex :
    (15.0 : ℚ) < 180 ∧ (tick inlierModel 15.0 0.0 []).secure = true := by
  constructor
  · norm_num
  · rfl

/-- C1 amended. For every sample with voltage < 180 the verdict simply
follows the statistical model: it is SECURE iff the model returns inlier
(prediction = 1); the code applies no low-voltage override. -/
theorem C1_low_voltage_follows_model
    (m : ModelFn) (v c : ℚ) (hist : List ℚ) (hv : v < 180) :
    (tick m v c hist).secure = true ↔ m v c = 1 := by
  simp [tick]

/-- C1 amended, witness at the Wire Cut sample with the inlier model. -/
theorem C1_low_voltage_follows_model_witness :
    (15.0 : ℚ) < 180 ∧
      ((tick inlierModel 15.0 0.0 []).secure = true ↔ inlierModel 15.0 0.0 = 1) :=
  ⟨by norm_num, C1_low_voltage_follows_model inlierModel 15.0 0.0 [] (by norm_num)⟩

/-- C2 counterexample. The claim "voltage > 250 forces ALERT regardless of
model output" is false of the code: at sample (300.0, 5.0) with a model
that classifies it as an inlier, the verdict is SECURE — app.py has no
high-voltage threshold either. -/
theorem C2_high_voltage_override_cex :
    (300.0 : ℚ) > 250 ∧ (tick inlierModel 300.0 5.0 []).secure = true := by
  constructor
  · norm_num
  · rfl

/-- C2 amended. For every sample with voltage > 250 the verdict follows
the statistical model: SECURE iff the model returns inlier. -/
theorem C2_high_voltage_follows_model
    (m : ModelFn) (v c : ℚ) (hist : List ℚ) (hv : v > 250) :
    (tick m v c hist).secure = true ↔ m v c = 1 := by
  simp [tick]

/-- C2 amended, witness at (300.0, 5.0) with the inlier model. -/
theorem C2_high_voltage_follows_model_witness :
    (300.0 : ℚ) > 250 ∧
      ((tick inlierModel 300.0 5.0 []).secure = true ↔ inlierModel 300.0 5.0 = 1) :=
  ⟨by norm_num, C2_high_voltage_follows_model inlierModel 300.0 5.0 [] (by norm_num)⟩

/-- C3. The claim says every malformed payload (unparseable JSON, or a
missing / non-numeric voltage or current field) leaves `RemoteSampleState`
exactly as it was.  The handler's two assignments run sequentially inside
one `try`: a payload whose `voltage` field is a number but whose `current`
field is missing updates `live_voltage` before the `KeyError` aborts the
block, leaving the state partially overwritten — here
`{"voltage": 100}` moves the state from (230, 5) to (100, 5). -/
theorem C3_partial_update_on_missing_current :
    on_message initRemoteState (.record (.num 100) .absent) =
        ⟨100, 5.0⟩ ∧
    on_message initRemoteState (.record (.num 100) .absent) ≠
        initRemoteState := by
  constructor
  · rfl
  · intro h
    have : (100 : ℚ) = 230.0 := congrArg RemoteSampleState.live_voltage h
    norm_num at this

/-- Appending one element to the result of a fold is one more `dqAppend`. -/
theorem histAll_append_one (ys : List ℚ) (x : ℚ) :
    histAll (ys ++ [x]) = dqAppend (histAll ys) x := by
  simp [histAll, List.foldl_append]

/-- Closed form of the deque fold: the buffer reached from the empty deque
by appending `xs` in order is exactly the last `histCap` elements of `xs`
(all of `xs` when it is shorter than the capacity). -/
theorem histAll_eq_drop (xs : List ℚ) :
    histAll xs = xs.drop (xs.length - histCap) := by
  have hcap : histCap = 50 := rfl
  induction xs using List.reverseRecOn with
  | nil => rfl
  | append_singleton ys x ih =>
    rw [histAll_append_one, ih, dqAppend]
    by_cases h : ys.length < histCap
    · have h0 : ys.length - histCap = 0 := by omega
      have h1 : ys.length + 1 - histCap = 0 := by omega
      simp [h0, h1, h, List.length_append]
    · have hlen : (ys.drop (ys.length - histCap)).length = histCap := by
        rw [List.length_drop]; omega
      rw [if_neg (by rw [hlen]; omega)]
      rw [List.drop_drop]
      have hle : (ys ++ [x]).length - histCap ≤ ys.length := by
        simp only [List.length_append, List.length_cons, List.length_nil]; omega
      rw [List.drop_append_of_le_length hle]
      congr 2
      simp only [List.length_append, List.length_cons, List.length_nil]
      omega

/-- C8. History-buffer invariants of `deque(maxlen=50)` under the tick
loop's appends: the buffer never exceeds the capacity 50; the newest
reading is always last; and after `50 + k` appends (`k > 0`) the buffer is
exactly the last 50 appended values in insertion order. -/
theorem C8_history_bounded (xs : List ℚ) (x : ℚ) :
    (histAll xs).length ≤ histCap ∧
    (histAll (xs ++ [x])).getLast? = some x ∧
    (∀ k : Nat, 0 < k → xs.length = histCap + k → histAll xs = xs.drop k) := by
  have hcap : histCap = 50 := rfl
  refine ⟨?_, ?_, ?_⟩
  · rw [histAll_eq_drop, List.length_drop]
    omega
  · rw [histAll_eq_drop]
    have hle : (xs ++ [x]).length - histCap ≤ xs.length := by
      simp only [List.length_append, List.length_cons, List.length_nil]; omega
    rw [List.drop_append_of_le_length hle]
    exact List.getLast?_concat _
  · intro k hk hlen
    rw [histAll_eq_drop, hlen]
    congr 1
    omega

/-- C8 witness: 51 appends of the reading 7 then one of 3; the bound, the
newest-last property and the exact-suffix property hold concretely. -/
theorem C8_history_bounded_witness :
    (histAll (List.replicate 51 (7 : ℚ))).length ≤ histCap ∧
    (histAll (List.replicate 51 (7 : ℚ) ++ [3])).getLast? = some 3 ∧
    (0 < 1 ∧ (List.replicate 51 (7 : ℚ)).length = histCap + 1) ∧
    histAll (List.replicate 51 (7 : ℚ)) = (List.replicate 51 (7 : ℚ)).drop 1 :=
  have h := C8_history_bounded (List.replicate 51 (7 : ℚ)) 3
  ⟨h.1, h.2.1, ⟨by norm_num, by simp [histCap]⟩,
    h.2.2 1 (by norm_num) (by simp [histCap])⟩

end SmartMeter
